import Mathlib

/-!
Verification of the meal_max battle engine against its specification.

The kitchen model (Meal entity and persistence-layer validation) is embedded
from src/meal_max/meal_max/models/kitchen_model.py.  The battle engine
(BattleModel) and the random source adapter are exercised only through their
tests in this repository (battle_model.py and random_utils.py are absent), so
those components are modelled from the specification, with doc comments
marking each such definition.

Floating-point values (prices, scores, random fractions) are embedded as
rationals; all arithmetic appearing in the claims is exact at this scale.
-/

namespace MealMax

/-- Meal value type from kitchen_model.py: id, name (field `meal`), cuisine,
price and difficulty.  Prices and scores are embedded as rationals. -/
structure Meal where
  id : Int
  meal : String
  cuisine : String
  price : ℚ
  difficulty : String
deriving DecidableEq, Repr

/-- Validation errors of the kitchen model: each constructor stands for one of
the distinct ValueError messages raised in kitchen_model.py. -/
inductive KitchenError where
  | invalidPrice
  | invalidDifficulty
  | duplicateName
deriving DecidableEq, Repr

/-- Membership test `difficulty in ["LOW", "MED", "HIGH"]` used by both
Meal.__post_init__ and create_meal in kitchen_model.py. -/
def validDifficulty (d : String) : Bool :=
  d = "LOW" || d = "MED" || d = "HIGH"

/-- Meal.__post_init__ from kitchen_model.py: rejects `price < 0`, then
rejects a difficulty outside LOW/MED/HIGH; otherwise the value is built. -/
def mkMeal (id : Int) (meal cuisine : String) (price : ℚ) (difficulty : String) :
    Except KitchenError Meal :=
  if price < 0 then .error .invalidPrice
  else if !validDifficulty difficulty then .error .invalidDifficulty
  else .ok ⟨id, meal, cuisine, price, difficulty⟩

/-- Row of the meals table as inserted by create_meal (deleted flag false,
battle counters zero). -/
structure MealRow where
  meal : String
  cuisine : String
  price : ℚ
  difficulty : String
  deleted : Bool
  battles : Nat
  wins : Nat
deriving DecidableEq, Repr

/-- create_meal from kitchen_model.py: rejects `price <= 0` (note: strictly
stricter than Meal.__post_init__, which admits zero), then an invalid
difficulty, both before touching the database; a duplicate meal name (UNIQUE
column) surfaces as a ValueError; otherwise the row is inserted. -/
def create_meal (meal cuisine : String) (price : ℚ) (difficulty : String)
    (db : List MealRow) : Except KitchenError (List MealRow) :=
  if price ≤ 0 then .error .invalidPrice
  else if !validDifficulty difficulty then .error .invalidDifficulty
  else if db.any (fun r => r.meal = meal) then .error .duplicateName
  else .ok (db ++ [⟨meal, cuisine, price, difficulty, false, 0, 0⟩])

/-- Absolute value on rationals, written so that it evaluates by kernel
reduction; agrees with Mathlib's lattice absolute value (`ratAbs_eq_abs`).
It embeds Python's built-in `abs`. -/
def ratAbs (q : ℚ) : ℚ := if q < 0 then -q else q

theorem ratAbs_eq_abs (q : ℚ) : ratAbs q = |q| := by
  unfold ratAbs
  rcases lt_or_le q 0 with h | h
  · rw [if_pos h, abs_of_neg h]
  · rw [if_neg (not_lt.mpr h), abs_of_nonneg h]

/-- Difficulty modifier of the scoring function: HIGH subtracts 1, MED 2,
LOW 3; any other difficulty has no modifier (the engine raises).  Modelled
from the spec (§4.3) and the tests in test_battle_model.py; battle_model.py
itself is not part of the sources. -/
def difficulty_modifier (d : String) : Option ℚ :=
  if d = "HIGH" then some 1
  else if d = "MED" then some 2
  else if d = "LOW" then some 3
  else none

/-- Modelled from the spec: BattleModel.get_battle_score (battle_model.py is
absent from the sources; §4.3 and the tests in test_battle_model.py fix it).
Battle score = price * cuisine length - difficulty modifier; a meal with an
invalid difficulty has no score (ValueError in the tests). -/
def get_battle_score (m : Meal) : Option ℚ :=
  (difficulty_modifier m.difficulty).map (fun dm => m.price * (m.cuisine.length : ℚ) - dm)

/-- Error kinds of the random source adapter, per spec §6. -/
inductive RandomError where
  | RandomSourceUnavailable
  | RandomSourceTimeout
  | RandomSourceMalformed
deriving DecidableEq, Repr

/-- Error kinds the statistics-update operation of the Persistence Gateway can
signal, per spec §6 (plus a lower-level storage error, §4.4 step 7). -/
inductive StatsError where
  | NotFound
  | AlreadyDeleted
  | storageError
deriving DecidableEq, Repr

/-- Error kinds of the battle engine, per spec §7. -/
inductive BattleError where
  | InsufficientCombatants
  | CapacityExceeded
  | invalidDifficulty
  | randomFailure (e : RandomError)
  | statsFailure (e : StatsError)
deriving DecidableEq, Repr

/-- State of the battle engine: the ordered list of staged combatants. -/
structure BattleModel where
  combatants : List Meal
deriving DecidableEq, Repr

deriving instance DecidableEq for Except

/-- Modelled from the spec: BattleModel.prep_combatant / Stage (§4.2;
battle_model.py is absent from the sources).  Appends the meal unless two
combatants are already staged, in which case it fails with CapacityExceeded
and the state is unchanged.  Returns the operation result together with the
next engine state. -/
def prep_combatant (bm : BattleModel) (m : Meal) :
    Except BattleError Unit × BattleModel :=
  if bm.combatants.length ≥ 2 then (Except.error BattleError.CapacityExceeded, bm)
  else (Except.ok (), ⟨bm.combatants ++ [m]⟩)

/-- Modelled from the spec: BattleModel.get_combatants / ListCombatants
(§4.2). -/
def get_combatants (bm : BattleModel) : List Meal := bm.combatants

/-- Modelled from the spec: BattleModel.clear_combatants / ClearCombatants
(§4.2): resets to empty regardless of the current state. -/
def clear_combatants (_bm : BattleModel) : BattleModel := ⟨[]⟩

/-- Everything a single resolution does: the returned value (winner name) or
error, the next engine state, the statistics-update calls issued in order
(meal id and reported result), and whether the random source was consumed. -/
structure BattleOutcome where
  result : Except BattleError String
  state : BattleModel
  statsCalls : List (Int × String)
  randomFetched : Bool
deriving DecidableEq, Repr

/-- Winner of the decision rule of spec §4.4 step 5: the nominal winner is the
combatant with the strictly higher score (the second combatant when tied), and
the decision flips to the nominal loser when delta ≤ random fraction. -/
def battle_winner (c1 c2 : Meal) (s1 s2 r : ℚ) : Meal :=
  if ratAbs (s1 - s2) / 100 ≤ r then (if s1 > s2 then c2 else c1)
  else (if s1 > s2 then c1 else c2)

/-- Loser of the decision rule of spec §4.4 step 5 (the combatant
`battle_winner` does not select). -/
def battle_loser (c1 c2 : Meal) (s1 s2 r : ℚ) : Meal :=
  if ratAbs (s1 - s2) / 100 ≤ r then (if s1 > s2 then c1 else c2)
  else (if s1 > s2 then c2 else c1)

/-- Modelled from the spec: BattleModel.battle / Resolve (§4.4;
battle_model.py is absent from the sources, its tests fix the behavior).
With fewer than two staged combatants it fails with InsufficientCombatants and
has no effect (no stats call, no random fetch).  Otherwise it scores both
combatants, consumes the random fraction (given here as the adapter's result),
applies the decision rule, reports win then loss to the statistics oracle
`stats`, removes the loser (leaving only the winner staged) and returns the
winner's display name.  A stats failure is propagated with the staging state
unchanged. -/
def battle (bm : BattleModel) (rand : Except RandomError ℚ)
    (stats : Int → String → Except StatsError Unit) : BattleOutcome :=
  match bm.combatants with
  | c1 :: c2 :: _ =>
    match get_battle_score c1, get_battle_score c2 with
    | some s1, some s2 =>
      match rand with
      | .error e => ⟨.error (.randomFailure e), bm, [], true⟩
      | .ok r =>
        let w := battle_winner c1 c2 s1 s2 r
        let l := battle_loser c1 c2 s1 s2 r
        match stats w.id "win" with
        | .error e => ⟨.error (.statsFailure e), bm, [(w.id, "win")], true⟩
        | .ok _ =>
          match stats l.id "loss" with
          | .error e => ⟨.error (.statsFailure e), bm, [(w.id, "win"), (l.id, "loss")], true⟩
          | .ok _ => ⟨.ok w.meal, ⟨[w]⟩, [(w.id, "win"), (l.id, "loss")], true⟩
    | _, _ => ⟨.error .invalidDifficulty, bm, [], false⟩
  | _ => ⟨.error .InsufficientCombatants, bm, [], false⟩

/-- Statistics oracle that always succeeds (both gateway calls go through). -/
def okStats : Int → String → Except StatsError Unit := fun _ _ => Except.ok ()

/-- One caller-visible operation on the battle engine, for stating the
state-machine invariant of spec §3/§8. -/
inductive BattleOp where
  | stage (m : Meal)
  | clear
  | resolve (rand : Except RandomError ℚ) (stats : Int → String → Except StatsError Unit)

/-- State transition of one operation (the state component of each
operation's outcome). -/
def applyOp (bm : BattleModel) (op : BattleOp) : BattleModel :=
  match op with
  | .stage m => (prep_combatant bm m).2
  | .clear => clear_combatants bm
  | .resolve rand stats => (battle bm rand stats).state

/-- Engine state after running a sequence of operations from the empty
engine. -/
def runOps (ops : List BattleOp) : BattleModel := List.foldl applyOp ⟨[]⟩ ops

/-- Possible outcomes of one fetch from the random source, per spec §6: a
successful two-decimal fraction (the endpoint is asked for one decimal
fraction with 2 decimal digits), a network/transport failure, a timeout, or a
malformed/non-numeric payload. -/
inductive RandomResponse where
  | success (k : Fin 100)
  | networkFailure
  | timeoutFailure
  | malformedPayload
deriving DecidableEq

/-- Modelled from the spec: random_utils.get_random (random_utils.py is absent
from the sources; §6 and test_random_utils.py fix it).  Propagates one
distinct error kind per failure mode and returns the fetched fraction on
success. -/
def get_random : RandomResponse → Except RandomError ℚ
  | .success k => .ok ((k : ℚ) / 100)
  | .networkFailure => .error .RandomSourceUnavailable
  | .timeoutFailure => .error .RandomSourceTimeout
  | .malformedPayload => .error .RandomSourceMalformed

/-- Sample meal of the battle tests: Pizza, Italian (7 characters), price 10,
LOW difficulty; battle score 67. -/
def pizza : Meal := ⟨1, "Pizza", "Italian", 10, "LOW"⟩

/-- Sample meal of the battle tests: Sushi, Japanese (8 characters), price 15,
MED difficulty; battle score 118. -/
def sushi : Meal := ⟨2, "Sushi", "Japanese", 15, "MED"⟩

/-- Meal designed to tie with `pizza`: Mexican is also 7 characters, price 10,
LOW difficulty; battle score 67. -/
def pasta : Meal := ⟨3, "Pasta", "Mexican", 10, "LOW"⟩

/-- Statistics oracle that always fails as if the meal were soft-deleted. -/
def failStats : Int → String → Except StatsError Unit :=
  fun _ _ => Except.error StatsError.AlreadyDeleted

/-! ### Evaluation lemmas for the sample meals -/

theorem score_pizza_eval : get_battle_score pizza = some 67 := by
  simp [get_battle_score, difficulty_modifier, pizza, show "Italian".length = 7 from rfl]
  norm_num

theorem score_sushi_eval : get_battle_score sushi = some 118 := by
  simp [get_battle_score, difficulty_modifier, sushi, show "Japanese".length = 8 from rfl]
  norm_num

theorem score_pasta_eval : get_battle_score pasta = some 67 := by
  simp [get_battle_score, difficulty_modifier, pasta, show "Mexican".length = 7 from rfl]
  norm_num

theorem r315_nonneg : (0 : ℚ) ≤ 3 / 20 := by norm_num

theorem r315_lt_one : (3 / 20 : ℚ) < 1 := by norm_num

theorem r110_nonneg : (0 : ℚ) ≤ 1 / 10 := by norm_num

theorem r1720_nonneg : (0 : ℚ) ≤ 17 / 20 := by norm_num

theorem scenario3_winner_eval : battle_winner pizza sushi 67 118 (3 / 20) = sushi := by
  norm_num [battle_winner, ratAbs]

theorem scenario3_loser_eval : battle_loser pizza sushi 67 118 (3 / 20) = pizza := by
  norm_num [battle_loser, ratAbs]

theorem scenario3_decision_eval :
    (if ratAbs ((67 : ℚ) - 118) / 100 ≤ 3 / 20
      then (if (67 : ℚ) > 118 then sushi else pizza)
      else (if (67 : ℚ) > 118 then pizza else sushi)).meal = "Sushi" := by
  norm_num [ratAbs, sushi]

/-! ### Claims -/

/-- C2: for every meal whose difficulty is LOW, MED or HIGH, the battle score
is price * cuisine length minus the difficulty modifier (1 for HIGH, 2 for
MED, 3 for LOW).  The scoring function is a plain function of the meal alone:
it takes no engine state, performs no I/O and consumes no randomness, so
determinism and freedom from state mutation hold by construction. -/
theorem get_battle_score_spec (m : Meal)
    (h : m.difficulty = "LOW" ∨ m.difficulty = "MED" ∨ m.difficulty = "HIGH") :
    get_battle_score m = some (m.price * (m.cuisine.length : ℚ) -
      (if m.difficulty = "HIGH" then 1 else if m.difficulty = "MED" then 2 else 3)) := by
  rcases h with h | h | h <;> simp [get_battle_score, difficulty_modifier, h]

theorem pizza_formula_eval :
    some (pizza.price * (pizza.cuisine.length : ℚ) -
      (if pizza.difficulty = "HIGH" then 1 else if pizza.difficulty = "MED" then 2 else 3)) =
    some (67 : ℚ) := by
  simp [pizza, show "Italian".length = 7 from rfl]
  norm_num

/-- Witness for C2: the price-10, 7-character-cuisine, LOW meal of Scenario 1
scores 67. -/
theorem get_battle_score_spec_witness :
    (pizza.difficulty = "LOW" ∨ pizza.difficulty = "MED" ∨ pizza.difficulty = "HIGH") ∧
    get_battle_score pizza = some 67 :=
  ⟨Or.inl rfl, (get_battle_score_spec pizza (Or.inl rfl)).trans pizza_formula_eval⟩

/-- C7: resolving with fewer than two staged combatants fails with
InsufficientCombatants and has no side effects: no statistics call is issued,
the random source is not consumed, and the combatants list is unchanged. -/
theorem battle_insufficient_combatants (bm : BattleModel)
    (rand : Except RandomError ℚ) (stats : Int → String → Except StatsError Unit)
    (h : bm.combatants.length < 2) :
    battle bm rand stats =
      ⟨Except.error BattleError.InsufficientCombatants, bm, [], false⟩ := by
  obtain ⟨l⟩ := bm
  rcases l with _ | ⟨a, _ | ⟨b, t⟩⟩
  · rfl
  · rfl
  · simp only [List.length_cons] at h
    omega

/-- Witness for C7: a single staged combatant makes resolution fail without
side effects. -/
theorem battle_insufficient_combatants_witness :
    (⟨[pizza]⟩ : BattleModel).combatants.length < 2 ∧
    battle ⟨[pizza]⟩ (Except.ok (3 / 20)) okStats =
      ⟨Except.error BattleError.InsufficientCombatants, ⟨[pizza]⟩, [], false⟩ :=
  ⟨by decide, battle_insufficient_combatants ⟨[pizza]⟩ (Except.ok (3 / 20)) okStats (by decide)⟩

/-- C9: the random source adapter maps each failure mode to its own error
kind — network/transport failure to RandomSourceUnavailable, timeout to
RandomSourceTimeout, malformed payload to RandomSourceMalformed — the three
kinds are pairwise distinct, and a successful fetch returns a fraction in
[0, 1). -/
theorem get_random_spec :
    get_random RandomResponse.networkFailure = Except.error RandomError.RandomSourceUnavailable ∧
    get_random RandomResponse.timeoutFailure = Except.error RandomError.RandomSourceTimeout ∧
    get_random RandomResponse.malformedPayload = Except.error RandomError.RandomSourceMalformed ∧
    (RandomError.RandomSourceUnavailable ≠ RandomError.RandomSourceTimeout ∧
      RandomError.RandomSourceUnavailable ≠ RandomError.RandomSourceMalformed ∧
      RandomError.RandomSourceTimeout ≠ RandomError.RandomSourceMalformed) ∧
    ∀ k : Fin 100, ∃ v : ℚ,
      get_random (RandomResponse.success k) = Except.ok v ∧ 0 ≤ v ∧ v < 1 := by
  refine ⟨rfl, rfl, rfl, ⟨by decide, by decide, by decide⟩,
    fun k => ⟨(k : ℚ) / 100, rfl, ?_, ?_⟩⟩
  · positivity
  · rw [div_lt_one (by norm_num)]
    exact_mod_cast k.2

/-- C10: at the zero-price boundary the two entry points disagree — Meal
construction admits price 0 (only negative prices are rejected), while
create_meal rejects price 0 before any database effect; the zero-priced meal
can nonetheless be staged and scored. -/
theorem zero_price_boundary (id : Int) (name cuisine : String) (db : List MealRow) :
    (∀ price : ℚ, 0 ≤ price →
      mkMeal id name cuisine price "LOW" = Except.ok ⟨id, name, cuisine, price, "LOW"⟩) ∧
    (∀ price : ℚ, price < 0 →
      mkMeal id name cuisine price "LOW" = Except.error KitchenError.invalidPrice) ∧
    create_meal name cuisine 0 "LOW" db = Except.error KitchenError.invalidPrice ∧
    (prep_combatant ⟨[]⟩ ⟨id, name, cuisine, 0, "LOW"⟩).1 = Except.ok () ∧
    (get_battle_score ⟨id, name, cuisine, 0, "LOW"⟩).isSome = true := by
  refine ⟨?_, ?_, ?_, ?_, ?_⟩
  · intro price hp
    simp [mkMeal, validDifficulty, not_lt.mpr hp]
  · intro price hp
    simp [mkMeal, hp]
  · simp [create_meal]
  · simp [prep_combatant]
  · simp [get_battle_score, difficulty_modifier]

/-- Witness for C10: the zero-priced "Free Meal" of the tests is a valid Meal
value, yet create_meal rejects it. -/
theorem zero_price_boundary_witness :
    (0 : ℚ) ≤ 0 ∧
    mkMeal 5 "Free Meal" "None" 0 "LOW" = Except.ok ⟨5, "Free Meal", "None", 0, "LOW"⟩ ∧
    create_meal "Free Meal" "None" 0 "LOW" [] = Except.error KitchenError.invalidPrice :=
  ⟨le_refl 0, (zero_price_boundary 5 "Free Meal" "None" []).1 0 (le_refl 0),
    (zero_price_boundary 5 "Free Meal" "None" []).2.2.1⟩

/-- C1: decision rule of a resolution — with two staged combatants of scores
s1 and s2 and a random fraction r in [0, 1), the combatant with the strictly
higher score wins unless delta = abs (s1 - s2) / 100 satisfies delta ≤ r, in
which case the decision flips to the other combatant; the nominal winner is
the first combatant exactly when s1 > s2. -/
theorem battle_decision_rule (c1 c2 : Meal) (s1 s2 r : ℚ)
    (h1 : get_battle_score c1 = some s1) (h2 : get_battle_score c2 = some s2)
    (hr0 : 0 ≤ r) (hr1 : r < 1)
    (stats : Int → String → Except StatsError Unit)
    (hstats : ∀ i res, stats i res = Except.ok ()) :
    (battle ⟨[c1, c2]⟩ (Except.ok r) stats).result =
      Except.ok ((if ratAbs (s1 - s2) / 100 ≤ r
        then (if s1 > s2 then c2 else c1)
        else (if s1 > s2 then c1 else c2)).meal) := by
  simp only [battle, h1, h2, hstats, battle_winner, battle_loser]

/-- Witness for C1, Scenario 3: Pizza (score 67) against Sushi (score 118)
with random fraction 0.15; delta = 0.51 > 0.15, so no flip and the
higher-scoring Sushi wins. -/
theorem battle_decision_rule_witness :
    get_battle_score pizza = some 67 ∧ get_battle_score sushi = some 118 ∧
    (0 : ℚ) ≤ 3 / 20 ∧ (3 / 20 : ℚ) < 1 ∧
    (battle ⟨[pizza, sushi]⟩ (Except.ok (3 / 20)) okStats).result = Except.ok "Sushi" :=
  ⟨score_pizza_eval, score_sushi_eval, r315_nonneg, r315_lt_one,
    (battle_decision_rule pizza sushi 67 118 (3 / 20) score_pizza_eval score_sushi_eval
      r315_nonneg r315_lt_one okStats (fun _ _ => rfl)).trans
      (congrArg Except.ok scenario3_decision_eval)⟩

/-- C3: tie-break per spec §4.4 — when the two staged combatants have exactly
equal scores, delta is 0, the flip condition delta ≤ r holds for every
r ≥ 0, and the flip away from the nominal winner (the second combatant) makes
the first-staged combatant the winner. -/
theorem battle_tie_first_staged_wins (c1 c2 : Meal) (s r : ℚ)
    (h1 : get_battle_score c1 = some s) (h2 : get_battle_score c2 = some s)
    (hr : 0 ≤ r) (stats : Int → String → Except StatsError Unit)
    (hstats : ∀ i res, stats i res = Except.ok ()) :
    (battle ⟨[c1, c2]⟩ (Except.ok r) stats).result = Except.ok c1.meal ∧
    (battle ⟨[c1, c2]⟩ (Except.ok r) stats).state = ⟨[c1]⟩ := by
  have hd : ratAbs (s - s) / 100 ≤ r := by
    rw [sub_self, ratAbs_eq_abs, abs_zero, zero_div]
    exact hr
  have hw : battle_winner c1 c2 s s r = c1 := by
    unfold battle_winner
    rw [if_pos hd, if_neg (lt_irrefl s)]
  constructor <;> simp only [battle, h1, h2, hstats, hw]

/-- Witness for C3: Pizza and Pasta both score 67; with random fraction 0.1
the first-staged Pizza wins and remains the only staged combatant. -/
theorem battle_tie_first_staged_wins_witness :
    get_battle_score pizza = some 67 ∧ get_battle_score pasta = some 67 ∧
    (0 : ℚ) ≤ 1 / 10 ∧
    (battle ⟨[pizza, pasta]⟩ (Except.ok (1 / 10)) okStats).result = Except.ok "Pizza" ∧
    (battle ⟨[pizza, pasta]⟩ (Except.ok (1 / 10)) okStats).state = ⟨[pizza]⟩ :=
  ⟨score_pizza_eval, score_pasta_eval, r110_nonneg,
    (battle_tie_first_staged_wins pizza pasta 67 (1 / 10) score_pizza_eval score_pasta_eval
      r110_nonneg okStats (fun _ _ => rfl)).1,
    (battle_tie_first_staged_wins pizza pasta 67 (1 / 10) score_pizza_eval score_pasta_eval
      r110_nonneg okStats (fun _ _ => rfl)).2⟩

theorem tie_battle_eval :
    battle ⟨[pizza, pasta]⟩ (Except.ok (1 / 10)) okStats =
      ⟨Except.ok "Pizza", ⟨[pizza]⟩, [(1, "win"), (3, "loss")], true⟩ := by
  have hw : battle_winner pizza pasta 67 67 (1 / 10) = pizza := by
    norm_num [battle_winner, ratAbs]
  have hl : battle_loser pizza pasta 67 67 (1 / 10) = pasta := by
    norm_num [battle_loser, ratAbs]
  simp only [battle, score_pizza_eval, score_pasta_eval, okStats, hw, hl]
  rfl

/-- Counterexample to C4 as stated: with the tied Pizza/Pasta pair and random
fraction 0.1, the resolution returns the FIRST-staged combatant's name
("Pizza") and keeps the first combatant staged, so combatant[0] wins rather
than loses (the outcome C4 asserts is that combatant[1] wins). -/
theorem battle_tie_scenario4_counterexample :
    get_battle_score pizza = get_battle_score pasta ∧
    (0 : ℚ) ≤ 1 / 10 ∧
    (battle ⟨[pizza, pasta]⟩ (Except.ok (1 / 10)) okStats).result = Except.ok pizza.meal ∧
    (battle ⟨[pizza, pasta]⟩ (Except.ok (1 / 10)) okStats).state = ⟨[pizza]⟩ ∧
    pizza.meal ≠ pasta.meal :=
  ⟨score_pizza_eval.trans score_pasta_eval.symm, r110_nonneg,
    congrArg BattleOutcome.result tie_battle_eval,
    congrArg BattleOutcome.state tie_battle_eval,
    by decide⟩

/-- C4 (amended): when the two staged combatants have exactly equal scores,
the outcome is deterministic and independent of the random draw's magnitude —
for any two non-negative random fractions the whole resolution outcome is
identical — but it is combatant[0] (the first staged) that wins and
combatant[1] that loses, per the flip rule of §4.4. -/
theorem battle_tie_outcome_independent_of_random (c1 c2 : Meal) (s r1 r2 : ℚ)
    (h1 : get_battle_score c1 = some s) (h2 : get_battle_score c2 = some s)
    (ha : 0 ≤ r1) (hb : 0 ≤ r2)
    (stats : Int → String → Except StatsError Unit)
    (hstats : ∀ i res, stats i res = Except.ok ()) :
    battle ⟨[c1, c2]⟩ (Except.ok r1) stats = battle ⟨[c1, c2]⟩ (Except.ok r2) stats ∧
    (battle ⟨[c1, c2]⟩ (Except.ok r1) stats).result = Except.ok c1.meal ∧
    (battle ⟨[c1, c2]⟩ (Except.ok r1) stats).state = ⟨[c1]⟩ := by
  have key : ∀ r : ℚ, 0 ≤ r →
      battle ⟨[c1, c2]⟩ (Except.ok r) stats =
        ⟨Except.ok c1.meal, ⟨[c1]⟩, [(c1.id, "win"), (c2.id, "loss")], true⟩ := by
    intro r hr
    have hd : ratAbs (s - s) / 100 ≤ r := by
      rw [sub_self, ratAbs_eq_abs, abs_zero, zero_div]
      exact hr
    have hw : battle_winner c1 c2 s s r = c1 := by
      unfold battle_winner
      rw [if_pos hd, if_neg (lt_irrefl s)]
    have hl : battle_loser c1 c2 s s r = c2 := by
      unfold battle_loser
      rw [if_pos hd, if_neg (lt_irrefl s)]
    simp only [battle, h1, h2, hstats, hw, hl]
  refine ⟨(key r1 ha).trans (key r2 hb).symm, ?_, ?_⟩
  · rw [key r1 ha]
  · rw [key r1 ha]

/-- Witness for the amended C4: the tied Pizza/Pasta battle has the same
outcome at random fractions 0.1 and 0.85, with Pizza (first staged)
winning. -/
theorem battle_tie_outcome_independent_of_random_witness :
    get_battle_score pizza = some 67 ∧ get_battle_score pasta = some 67 ∧
    (0 : ℚ) ≤ 1 / 10 ∧ (0 : ℚ) ≤ 17 / 20 ∧
    battle ⟨[pizza, pasta]⟩ (Except.ok (1 / 10)) okStats =
      battle ⟨[pizza, pasta]⟩ (Except.ok (17 / 20)) okStats ∧
    (battle ⟨[pizza, pasta]⟩ (Except.ok (1 / 10)) okStats).result = Except.ok "Pizza" :=
  ⟨score_pizza_eval, score_pasta_eval, r110_nonneg, r1720_nonneg,
    (battle_tie_outcome_independent_of_random pizza pasta 67 (1 / 10) (17 / 20)
      score_pizza_eval score_pasta_eval r110_nonneg r1720_nonneg okStats (fun _ _ => rfl)).1,
    (battle_tie_outcome_independent_of_random pizza pasta 67 (1 / 10) (17 / 20)
      score_pizza_eval score_pasta_eval r110_nonneg r1720_nonneg okStats (fun _ _ => rfl)).2.1⟩

/-- C5: a successful resolution (two staged combatants, random fetch and both
statistics updates succeed) issues exactly two statistics calls — win for the
winner's id then loss for the loser's id — removes the loser so that exactly
the winner stays staged, and returns the winner's display name. -/
theorem battle_success_effects (c1 c2 : Meal) (s1 s2 r : ℚ)
    (h1 : get_battle_score c1 = some s1) (h2 : get_battle_score c2 = some s2)
    (stats : Int → String → Except StatsError Unit)
    (hstats : ∀ i res, stats i res = Except.ok ()) :
    battle ⟨[c1, c2]⟩ (Except.ok r) stats =
      ⟨Except.ok (battle_winner c1 c2 s1 s2 r).meal,
        ⟨[battle_winner c1 c2 s1 s2 r]⟩,
        [((battle_winner c1 c2 s1 s2 r).id, "win"),
          ((battle_loser c1 c2 s1 s2 r).id, "loss")],
        true⟩ := by
  simp only [battle, h1, h2, hstats]

/-- Witness for C5: the Scenario-3 battle reports win for Sushi (id 2), loss
for Pizza (id 1), leaves exactly Sushi staged, and returns "Sushi". -/
theorem battle_success_effects_witness :
    get_battle_score pizza = some 67 ∧ get_battle_score sushi = some 118 ∧
    battle ⟨[pizza, sushi]⟩ (Except.ok (3 / 20)) okStats =
      ⟨Except.ok "Sushi", ⟨[sushi]⟩, [(2, "win"), (1, "loss")], true⟩ :=
  ⟨score_pizza_eval, score_sushi_eval,
    (battle_success_effects pizza sushi 67 118 (3 / 20) score_pizza_eval score_sushi_eval
      okStats (fun _ _ => rfl)).trans
      (by rw [scenario3_winner_eval, scenario3_loser_eval]; rfl)⟩

/-- C6: if a statistics update issued during resolution fails — whether the
first (win) call or the second (loss) call — the failure is propagated and
the loser is not removed: both original combatants are still staged in
order. -/
theorem battle_stats_failure_preserves_state (c1 c2 : Meal) (s1 s2 r : ℚ)
    (e : StatsError)
    (h1 : get_battle_score c1 = some s1) (h2 : get_battle_score c2 = some s2)
    (stats : Int → String → Except StatsError Unit)
    (hfail : stats (battle_winner c1 c2 s1 s2 r).id "win" = Except.error e ∨
      (stats (battle_winner c1 c2 s1 s2 r).id "win" = Except.ok () ∧
        stats (battle_loser c1 c2 s1 s2 r).id "loss" = Except.error e)) :
    (battle ⟨[c1, c2]⟩ (Except.ok r) stats).result =
      Except.error (BattleError.statsFailure e) ∧
    (battle ⟨[c1, c2]⟩ (Except.ok r) stats).state = ⟨[c1, c2]⟩ := by
  rcases hfail with hf | ⟨hok, hf⟩
  · constructor <;> simp only [battle, h1, h2, hf]
  · constructor <;> simp only [battle, h1, h2, hok, hf]

/-- Witness for C6: with a statistics oracle failing as if the meal were
soft-deleted, the Scenario-3 battle propagates the failure and keeps both
combatants staged. -/
theorem battle_stats_failure_preserves_state_witness :
    get_battle_score pizza = some 67 ∧ get_battle_score sushi = some 118 ∧
    (battle ⟨[pizza, sushi]⟩ (Except.ok (3 / 20)) failStats).result =
      Except.error (BattleError.statsFailure StatsError.AlreadyDeleted) ∧
    (battle ⟨[pizza, sushi]⟩ (Except.ok (3 / 20)) failStats).state = ⟨[pizza, sushi]⟩ :=
  ⟨score_pizza_eval, score_sushi_eval,
    (battle_stats_failure_preserves_state pizza sushi 67 118 (3 / 20)
      StatsError.AlreadyDeleted score_pizza_eval score_sushi_eval failStats (Or.inl rfl)).1,
    (battle_stats_failure_preserves_state pizza sushi 67 118 (3 / 20)
      StatsError.AlreadyDeleted score_pizza_eval score_sushi_eval failStats (Or.inl rfl)).2⟩

theorem battle_state_shape (bm : BattleModel) (rand : Except RandomError ℚ)
    (stats : Int → String → Except StatsError Unit) :
    (battle bm rand stats).state = bm ∨ ∃ w, (battle bm rand stats).state = ⟨[w]⟩ := by
  obtain ⟨l⟩ := bm
  rcases l with _ | ⟨c1, _ | ⟨c2, t⟩⟩
  · exact Or.inl rfl
  · exact Or.inl rfl
  · rcases h1 : get_battle_score c1 with _ | s1
    · left
      simp only [battle, h1]
    · rcases h2 : get_battle_score c2 with _ | s2
      · left
        simp only [battle, h1, h2]
      · rcases rand with e | r
        · left
          simp only [battle, h1, h2]
        · rcases hw : stats (battle_winner c1 c2 s1 s2 r).id "win" with e | u
          · left
            simp only [battle, h1, h2, hw]
          · rcases hl : stats (battle_loser c1 c2 s1 s2 r).id "loss" with e | u
            · left
              simp only [battle, h1, h2, hw, hl]
            · right
              exact ⟨battle_winner c1 c2 s1 s2 r, by simp only [battle, h1, h2, hw, hl]⟩

theorem applyOp_length_le (bm : BattleModel) (op : BattleOp)
    (h : bm.combatants.length ≤ 2) : (applyOp bm op).combatants.length ≤ 2 := by
  cases op with
  | stage m =>
    simp only [applyOp, prep_combatant]
    split
    · exact h
    · rename_i hlen
      simp only [not_le] at hlen
      simp only [List.length_append, List.length_cons, List.length_nil]
      omega
  | clear =>
    simp [applyOp, clear_combatants]
  | resolve rand stats =>
    rcases battle_state_shape bm rand stats with hs | ⟨w, hs⟩
    · simp only [applyOp, hs]
      exact h
    · simp only [applyOp, hs, List.length_cons, List.length_nil]
      omega

theorem runOps_length_aux (ops : List BattleOp) :
    ∀ bm : BattleModel, bm.combatants.length ≤ 2 →
      (List.foldl applyOp bm ops).combatants.length ≤ 2 := by
  induction ops with
  | nil =>
    intro bm h
    simpa using h
  | cons op rest ih =>
    intro bm h
    exact ih (applyOp bm op) (applyOp_length_le bm op h)

/-- C8: over every sequence of Stage / ClearCombatants / Resolve operations
starting from the empty engine, the combatants list never holds more than two
meals; and staging into a full engine fails with CapacityExceeded, leaving the
two staged combatants unchanged in order. -/
theorem combatants_length_invariant :
    (∀ ops : List BattleOp, (runOps ops).combatants.length ≤ 2) ∧
    (∀ (bm : BattleModel) (m : Meal), bm.combatants.length = 2 →
      prep_combatant bm m = (Except.error BattleError.CapacityExceeded, bm)) := by
  constructor
  · intro ops
    exact runOps_length_aux ops ⟨[]⟩ (by simp)
  · intro bm m h
    simp [prep_combatant, h]

/-- Witness for C8: staging Pasta into an engine already holding Pizza and
Sushi fails with CapacityExceeded and changes nothing. -/
theorem combatants_length_invariant_witness :
    (⟨[pizza, sushi]⟩ : BattleModel).combatants.length = 2 ∧
    prep_combatant ⟨[pizza, sushi]⟩ pasta =
      (Except.error BattleError.CapacityExceeded, ⟨[pizza, sushi]⟩) :=
  ⟨rfl, combatants_length_invariant.2 ⟨[pizza, sushi]⟩ pasta rfl⟩

end MealMax
